import Mathlib

/-!
# Verification of the VRP route-plotting utility (`Graficar.py`)

A shallow embedding of the Python module `Graficar.py`, which loads vehicle
routes from a loosely structured CSV-like text file and renders them.

Modelling conventions:
* Python strings are modelled as `String` / `List Char`; the iterator-based
  Python primitives (`str.strip`, `str.split`, `str.startswith`, `in`) are
  re-implemented structurally over `List Char` with the same semantics.
* Python `float` values are modelled as exact rationals (`ℚ`): `float(s)`
  is modelled on the grammar of finite decimal literals
  (optional sign, digits with optional fraction part, optional exponent);
  the special forms `inf`/`nan` and underscore separators, which never occur
  in the claims under study, are not modelled.  `int(s)` is modelled on
  optionally signed decimal digit strings.
* File I/O is modelled by the `FileRead` type: a file is either missing,
  fails with an I/O error midway through reading (after yielding a prefix of
  its lines, which the Python `try` block discards), or yields its list of
  lines.  All functions are total: the embedding of
  `load_routes_from_csv` can signal no exception, mirroring the
  `try/except` wrapper that converts every exception into `[]`.
* The side effects of `matplotlib` calls are modelled as a trace of drawing
  commands (`PlotCmd`), and `plt.xlim`/`plt.ylim` as a `bounds` field;
  `plot_routes` returns `none` for the Python `return None` on empty input.
* `random.randint(0, 0xFFFFFF)` is modelled by an oracle stream
  `rng : Nat → Nat` indexed by the loop counter, constrained to the
  `randint` range by hypothesis where relevant.
-/

namespace Graficar

/-! ## Python string primitives over `List Char` -/

/-- Python `str.strip()` on the character list of a string: remove leading
and trailing whitespace. -/
def pyStripChars (cs : List Char) : List Char :=
  ((cs.dropWhile Char.isWhitespace).reverse.dropWhile Char.isWhitespace).reverse

/-- Python `s.startswith(pre)`: the first list starts with the second. -/
def beginsWith : List Char → List Char → Bool
  | _, [] => true
  | [], _ :: _ => false
  | c :: cs, p :: ps => c == p && beginsWith cs ps

/-- Python `s.split(',')`: split on every comma, keeping empty fields.
`splitOnComma [] = [[]]`, matching `''.split(',') == ['']`. -/
def splitOnComma : List Char → List (List Char)
  | [] => [[]]
  | c :: rest =>
    if c == ',' then [] :: splitOnComma rest
    else
      match splitOnComma rest with
      | [] => [[c]]
      | p :: ps => (c :: p) :: ps

/-! ## Python numeric literal parsing (`float`, `int`) -/

/-- Numeric value of a decimal digit character. -/
def digitVal (c : Char) : Nat := c.toNat - 48

/-- Value of a string of decimal digit characters, most significant first. -/
def decimalVal (ds : List Char) : Nat :=
  ds.foldl (fun a c => 10 * a + digitVal c) 0

/-- A non-empty all-digit character string parsed to its value, else `none`. -/
def parseDigitsNat (ds : List Char) : Option Nat :=
  if ds.isEmpty then none
  else if ds.all Char.isDigit then some (decimalVal ds) else none

/-- An optionally signed non-empty digit string parsed to an integer. -/
def parseSignedDigits : List Char → Option ℤ
  | '+' :: ds => (parseDigitsNat ds).map (fun n => (n : ℤ))
  | '-' :: ds => (parseDigitsNat ds).map (fun n => -(n : ℤ))
  | ds => (parseDigitsNat ds).map (fun n => (n : ℤ))

/-- The exponent suffix of a float literal: empty means exponent `0`;
`e`/`E` followed by an optionally signed digit string gives that value;
anything else is a parse failure. -/
def parseExpPart : List Char → Option ℤ
  | [] => some 0
  | 'e' :: rest => parseSignedDigits rest
  | 'E' :: rest => parseSignedDigits rest
  | _ => none

/-- The exact rational `m * 10 ^ k`, built with `mkRat` only. -/
def decScale (m : ℤ) (k : ℤ) : ℚ :=
  if 0 ≤ k then mkRat (m * (10 : ℤ) ^ k.toNat) 1
  else mkRat m ((10 : ℕ) ^ (-k).toNat)

/-- An unsigned float literal: digits with an optional fraction part (at
least one digit overall) and an optional exponent, evaluated exactly. -/
def parseUnsignedFloat (cs : List Char) : Option ℚ :=
  let (intDs, rest) := cs.span Char.isDigit
  match rest with
  | '.' :: rest2 =>
    let (fracDs, rest3) := rest2.span Char.isDigit
    if intDs.isEmpty && fracDs.isEmpty then none
    else
      (parseExpPart rest3).map fun e =>
        decScale (decimalVal (intDs ++ fracDs)) (e - fracDs.length)
  | _ =>
    if intDs.isEmpty then none
    else (parseExpPart rest).map fun e => decScale (decimalVal intDs) e

/-- Python `float(s)` on a finite decimal literal (strips whitespace,
optional sign), as an exact rational; `none` models `ValueError`. -/
def pyFloat? (cs : List Char) : Option ℚ :=
  match pyStripChars cs with
  | '+' :: ds => parseUnsignedFloat ds
  | '-' :: ds => (parseUnsignedFloat ds).map Neg.neg
  | ds => parseUnsignedFloat ds

/-- Python `int(s)` on an optionally signed decimal digit string (strips
whitespace); `none` models `ValueError`. -/
def pyInt? (cs : List Char) : Option ℤ :=
  match pyStripChars cs with
  | '+' :: ds => (parseDigitsNat ds).map (fun n => (n : ℤ))
  | '-' :: ds => (parseDigitsNat ds).map (fun n => -(n : ℤ))
  | ds => (parseDigitsNat ds).map (fun n => (n : ℤ))

/-! ## Data model -/

/-- A waypoint `(x, y, node_id)`: the Python tuple appended to a route by
`load_routes_from_csv`.  `node_id = -1` is the "unknown id" sentinel. -/
structure Waypoint where
  x : ℚ
  y : ℚ
  node_id : ℤ
deriving DecidableEq, Repr

/-! ## Loader (`load_routes_from_csv`) -/

/-- The route-start marker string of `Graficar.py`, as characters. -/
def markerChars : List Char := "# Ruta vehiculo".data

/-- One coordinate record: `line.split(',')`; with `>= 3` fields the first
two parse as floats and the third as an int (extra fields ignored); with
exactly `2` fields the id is the sentinel `-1`; a failed numeric parse
models the `except ValueError: continue`.  The final catch-all is
unreachable for lines containing a comma (a split on `','` of such a line
has at least two fields). -/
def parseDataLine (line : List Char) : Option Waypoint :=
  match splitOnComma line with
  | p0 :: p1 :: p2 :: _ =>
    match pyFloat? p0, pyFloat? p1, pyInt? p2 with
    | some x, some y, some n => some ⟨x, y, n⟩
    | _, _, _ => none
  | [p0, p1] =>
    match pyFloat? p0, pyFloat? p1 with
    | some x, some y => some ⟨x, y, -1⟩
    | _, _ => none
  | _ => none

/-- The loop state of `load_routes_from_csv`: the completed routes and the
route under construction. -/
structure LoadState where
  routes : List (List Waypoint)
  current_route : List Waypoint
deriving DecidableEq, Repr

/-- The body of the `for line in file` loop of `load_routes_from_csv`:
strip the line; a marker line flushes the current route (kept only if
non-empty) and starts a new one; a line with a comma is parsed as a
coordinate record; anything else is ignored. -/
def processLine (st : LoadState) (rawLine : String) : LoadState :=
  let line := pyStripChars rawLine.data
  if beginsWith line markerChars then
    { routes := if st.current_route.isEmpty then st.routes
                else st.routes ++ [st.current_route]
      current_route := [] }
  else if line.contains ',' then
    match parseDataLine line with
    | some w => { st with current_route := st.current_route ++ [w] }
    | none => st
  else st

/-- The post-loop flush of `load_routes_from_csv`: append the in-progress
route if it is non-empty. -/
def finishLoad (st : LoadState) : List (List Waypoint) :=
  if st.current_route.isEmpty then st.routes else st.routes ++ [st.current_route]

/-- `load_routes_from_csv` on the list of lines of a successfully opened
file. -/
def loadLines (lines : List String) : List (List Waypoint) :=
  finishLoad (lines.foldl processLine ⟨[], []⟩)

/-- The outcome of opening and reading the input file: the file is missing
(`FileNotFoundError`), or reading fails after yielding a prefix of the
lines (any other exception), or all lines are read. -/
inductive FileRead where
  | missing
  | readError (partialLines : List String)
  | ok (lines : List String)
deriving DecidableEq, Repr

/-- `load_routes_from_csv`: the `try/except` wrapper returns `[]` both for
a missing file and for any other exception (discarding routes parsed before
the failure); a fully read file is parsed by the line loop. -/
def load_routes_from_csv : FileRead → List (List Waypoint)
  | FileRead.missing => []
  | FileRead.readError _ => []
  | FileRead.ok lines => loadLines lines

/-! ## Color allocator (`generate_colors`) -/

/-- The fixed 24-entry palette `base_colors` of `generate_colors`. -/
def base_colors : List String :=
  ["#FF0000", "#00FF00", "#0000FF", "#FFFF00", "#FF00FF", "#00FFFF",
   "#FFA500", "#800080", "#008000", "#FFC0CB", "#A52A2A", "#808080",
   "#000080", "#008080", "#800000", "#808000", "#FF6347", "#4682B4",
   "#9ACD32", "#FF1493", "#DC143C", "#00CED1", "#FF8C00", "#9932CC"]

/-- Python `"{0:06x}".format v` for `v ≤ 0xFFFFFF` (its only use site,
`random.randint(0, 0xFFFFFF)`): the six base-16 digits of `v`, most
significant first, zero-padded, lowercase. -/
def format06x (v : Nat) : String :=
  String.mk (((List.range 6).reverse).map fun i => Nat.digitChar (v / 16 ^ i % 16))

/-- `generate_colors`: the first `min n 24` colors are drawn from the fixed
palette by index; each remaining loop index `i ∈ [24, n)` appends a random
hex color, modelled by the oracle stream `rng`. -/
def generate_colors (num_routes : Nat) (rng : Nat → Nat) : List String :=
  (List.range (min num_routes base_colors.length)).map
      (fun i => base_colors.getD i "")
  ++ (List.range' base_colors.length (num_routes - base_colors.length)).map
      (fun i => "#" ++ format06x (rng i))

/-! ## Renderer (`plot_routes`) -/

/-- One drawing command issued by `plot_routes`: the `plt.plot` polyline
with its legend label, a `plt.annotate` node label, the per-route square
start marker, or the diamond depot marker. -/
inductive PlotCmd where
  | polyline (routeIdx : Nat) (color : String) (xs ys : List ℚ) (label : String)
  | annotate (label : String) (x y : ℚ)
  | startMarker (routeIdx : Nat) (color : String) (x y : ℚ)
  | depotMarker (x y : ℚ)
deriving DecidableEq, Repr

/-- Python `min(l)` on a non-empty list (`0` is never used: every call site
is guarded by a non-emptiness test). -/
def listMin : List ℚ → ℚ
  | [] => 0
  | x :: xs => xs.foldl min x

/-- Python `max(l)` on a non-empty list, as `listMin`. -/
def listMax : List ℚ → ℚ
  | [] => 0
  | x :: xs => xs.foldl max x

/-- The drawing commands of one iteration of the route loop of
`plot_routes`: a route with fewer than 2 waypoints is skipped (`continue`);
otherwise the polyline, one annotation per waypoint whose id is not the
sentinel `-1`, and the start marker are drawn. -/
def routeCmds (i : Nat) (color : String) (route : List Waypoint) : List PlotCmd :=
  if route.length < 2 then []
  else
    [PlotCmd.polyline i color (route.map Waypoint.x) (route.map Waypoint.y)
        ("Ruta " ++ toString (i + 1))]
    ++ route.filterMap (fun w =>
        if w.node_id = -1 then none
        else some (PlotCmd.annotate (toString w.node_id) w.x w.y))
    ++ (if route.length > 0 then
          [PlotCmd.startMarker i color ((route.map Waypoint.x).headD 0)
              ((route.map Waypoint.y).headD 0)]
        else [])

/-- The `all_x` accumulator of `plot_routes`: x coordinates of the routes
that are not skipped (`len(route) < 2` routes are skipped before
`all_x.extend`). -/
def collectX (routes : List (List Waypoint)) : List ℚ :=
  ((routes.filter fun r => !decide (r.length < 2)).map
      fun r => r.map Waypoint.x).flatten

/-- The `all_y` accumulator of `plot_routes`, as `collectX`. -/
def collectY (routes : List (List Waypoint)) : List ℚ :=
  ((routes.filter fun r => !decide (r.length < 2)).map
      fun r => r.map Waypoint.y).flatten

/-- The `plt.xlim`/`plt.ylim` setting of `plot_routes`: only when both
coordinate accumulators are non-empty, the min/max of each expanded by a
margin of `0.01` of that axis's range; the result is
`(xlow, xhigh, ylow, yhigh)`. -/
def boundsOf (all_x all_y : List ℚ) : Option (ℚ × ℚ × ℚ × ℚ) :=
  if all_x.isEmpty || all_y.isEmpty then none
  else
    let margin_x := (listMax all_x - listMin all_x) * (1 / 100 : ℚ)
    let margin_y := (listMax all_y - listMin all_y) * (1 / 100 : ℚ)
    some (listMin all_x - margin_x, listMax all_x + margin_x,
          listMin all_y - margin_y, listMax all_y + margin_y)

/-- The observable outcome of `plot_routes`: the trace of drawing commands
and the axis bounds set at the end (`none` when left at their default). -/
structure PlotResult where
  cmds : List PlotCmd
  bounds : Option (ℚ × ℚ × ℚ × ℚ)
deriving DecidableEq, Repr

/-- `plot_routes`: `None` (here `none`) on an empty route collection;
otherwise the per-route commands (in route order, colors by route index),
the depot marker for the first waypoint of the first route, and the axis
bounds. -/
def plot_routes (routes : List (List Waypoint)) (rng : Nat → Nat) :
    Option PlotResult :=
  if routes.isEmpty then none
  else
    let colors := generate_colors routes.length rng
    let cmds :=
      (routes.enum.map fun p => routeCmds p.1 (colors.getD p.1 "") p.2).flatten
    let first := routes.headD []
    let depotCmds :=
      if first.length > 0 then
        [PlotCmd.depotMarker ((first.headD ⟨0, 0, 0⟩).x)
            ((first.headD ⟨0, 0, 0⟩).y)]
      else []
    some ⟨cmds ++ depotCmds, boundsOf (collectX routes) (collectY routes)⟩

/-! ## Summary pass (`print_route_summary`) -/

/-- `print_route_summary`: returns the trace of emitted output lines (the
function prints nothing, so the trace is always empty) together with the
accumulated `total_points`. -/
def print_route_summary (routes : List (List Waypoint)) : List String × Nat :=
  (([] : List String),
   routes.foldl
     (fun total route =>
       total + (if route.length > 1 then route.length - 1 else 0))
     0)

/-! ## Claim-side definitions

Derived views of the loader's line handling, and definitions that follow
the words of the specification, used to state the claims. -/

/-- A route-start marker line: its stripped text begins with
`# Ruta vehiculo`. -/
def isMarker (l : String) : Bool :=
  beginsWith (pyStripChars l.data) markerChars

/-- The waypoint a single line contributes to the route under construction:
`none` for marker lines, comma-free lines, and lines whose numeric parse
fails. -/
def lineWaypoint (l : String) : Option Waypoint :=
  let t := pyStripChars l.data
  if beginsWith t markerChars then none
  else if t.contains ',' then parseDataLine t
  else none

/-- Whether the leading segment of `lines` (the lines before the first
marker, or all of them if there is none) contributes at least one
waypoint. -/
def segHasWaypoint : List String → Bool
  | [] => false
  | l :: ls =>
    if isMarker l then false
    else ((lineWaypoint l).isSome || segHasWaypoint ls)

/-- The route count predicted by claim C1: the number of marker lines whose
following segment (up to the next marker or end of file) yields a
non-empty route. -/
def productiveMarkerCount : List String → Nat
  | [] => 0
  | l :: ls =>
    (if isMarker l && segHasWaypoint ls then 1 else 0) + productiveMarkerCount ls

/-- A lowercase hexadecimal digit. -/
def isHexDigitChar (c : Char) : Bool :=
  c.isDigit || ('a' ≤ c && c ≤ 'f')

/-- A `#` followed by exactly six hexadecimal digits. -/
def isHex6Color (s : String) : Bool :=
  match s.data with
  | '#' :: rest => rest.length == 6 && rest.all isHexDigitChar
  | _ => false

/-- Follows the words of claim C7: the plot bounds are the min/max of the
x and y values across ALL routes in the collection, each axis expanded by
a margin of 1% of that axis's range; `none` when no points exist. -/
def allRoutesBounds (routes : List (List Waypoint)) : Option (ℚ × ℚ × ℚ × ℚ) :=
  let pts := routes.flatten
  let xs := pts.map Waypoint.x
  let ys := pts.map Waypoint.y
  if xs.isEmpty || ys.isEmpty then none
  else
    let margin_x := (listMax xs - listMin xs) * (1 / 100 : ℚ)
    let margin_y := (listMax ys - listMin ys) * (1 / 100 : ℚ)
    some (listMin xs - margin_x, listMax xs + margin_x,
          listMin ys - margin_y, listMax ys + margin_y)

/-- Follows the words of the amended claim C7: the plot bounds are the
min/max of the x and y values across the routes with at least two
waypoints (the routes the renderer does not skip), each axis expanded by a
margin of 1% of that axis's range; `none` when no such points exist. -/
def drawnBounds (routes : List (List Waypoint)) : Option (ℚ × ℚ × ℚ × ℚ) :=
  let pts := (routes.filter fun r => decide (2 ≤ r.length)).flatten
  let xs := pts.map Waypoint.x
  let ys := pts.map Waypoint.y
  if xs.isEmpty || ys.isEmpty then none
  else
    let margin_x := (listMax xs - listMin xs) * (1 / 100 : ℚ)
    let margin_y := (listMax ys - listMin ys) * (1 / 100 : ℚ)
    some (listMin xs - margin_x, listMax xs + margin_x,
          listMin ys - margin_y, listMax ys + margin_y)

/-- How many `plt.annotate` calls with the given label text the renderer
issues. -/
def countAnnot (lbl : String) (res : Option PlotResult) : Nat :=
  match res with
  | none => 0
  | some r =>
    r.cmds.countP fun c =>
      match c with
      | PlotCmd.annotate l _ _ => decide (l = lbl)
      | _ => false

/-- Whether the renderer draws the polyline of the route with the given
index (i.e. does not skip that route). -/
def hasPolyline (i : Nat) (res : Option PlotResult) : Bool :=
  match res with
  | none => false
  | some r =>
    r.cmds.any fun c =>
      match c with
      | PlotCmd.polyline j _ _ _ _ => j == i
      | _ => false

/-- The literal 8-line input file of the end-to-end property (claim C8). -/
def lines8 : List String :=
  ["# Ruta vehiculo 1", "0,0,0", "5,5,1", "0,0,0",
   "# Ruta vehiculo 2", "0,0,0", "3,1,2", "0,0,0"]

/-- A route collection with a 1-waypoint route whose coordinates dominate
the others: the renderer skips it, and its point is excluded from the
bounds computation. -/
def cexRoutes : List (List Waypoint) :=
  [[⟨100, 100, 0⟩], [⟨0, 0, 0⟩, ⟨1, 1, 1⟩]]

/-! ## Helper lemmas about the loader loop -/

/-- The loop body, characterized through `isMarker` and `lineWaypoint`. -/
theorem processLine_eq (st : LoadState) (l : String) :
    processLine st l =
      if isMarker l then ⟨finishLoad st, []⟩
      else
        match lineWaypoint l with
        | some w => ⟨st.routes, st.current_route ++ [w]⟩
        | none => st := by
  unfold processLine isMarker lineWaypoint finishLoad
  by_cases h1 : beginsWith (pyStripChars l.data) markerChars = true
  · simp [h1]
  · by_cases h2 : ',' ∈ pyStripChars l.data
    · cases hp : parseDataLine (pyStripChars l.data) <;> simp [h1, h2, hp]
    · simp [h1, h2]

theorem finishLoad_length (rs : List (List Waypoint)) (cur : List Waypoint) :
    (finishLoad ⟨rs, cur⟩).length = rs.length + (if cur.isEmpty then 0 else 1) := by
  unfold finishLoad
  by_cases h : cur.isEmpty <;> simp [h]

theorem finishLoad_mem (rs : List (List Waypoint)) (cur : List Waypoint)
    (hrs : ∀ r ∈ rs, r ≠ []) :
    ∀ r ∈ finishLoad ⟨rs, cur⟩, r ≠ [] := by
  unfold finishLoad
  by_cases h : cur.isEmpty
  · simpa [h] using hrs
  · intro r hr
    rcases (by simpa [h] using hr : r ∈ rs ∨ r = cur) with h1 | h1
    · exact hrs r h1
    · subst h1
      intro hc
      rw [hc] at h
      exact h rfl

/-- Route count of the loader loop from an arbitrary state: the completed
routes, plus one route flushed from the current segment if it ends up
non-empty, plus one route per productive marker. -/
theorem loadCount_aux (lines : List String) :
    ∀ rs cur,
      (finishLoad (lines.foldl processLine ⟨rs, cur⟩)).length
        = rs.length + (if cur.isEmpty && !segHasWaypoint lines then 0 else 1)
          + productiveMarkerCount lines := by
  induction lines with
  | nil =>
    intro rs cur
    simp only [List.foldl_nil, segHasWaypoint, productiveMarkerCount,
      finishLoad_length]
    by_cases h : cur.isEmpty <;> simp [h]
  | cons l ls ih =>
    intro rs cur
    rw [List.foldl_cons, processLine_eq]
    by_cases hm : isMarker l
    · rw [if_pos hm, ih (finishLoad ⟨rs, cur⟩) []]
      simp only [segHasWaypoint, productiveMarkerCount, hm, finishLoad_length]
      by_cases hc : cur.isEmpty <;> by_cases hs : segHasWaypoint ls <;>
        simp [hc, hs] <;> omega
    · rw [if_neg hm]
      cases hw : lineWaypoint l with
      | some w =>
        rw [ih rs (cur ++ [w])]
        simp only [segHasWaypoint, productiveMarkerCount, hm, hw]
        simp
      | none =>
        rw [ih rs cur]
        simp [segHasWaypoint, productiveMarkerCount, hm, hw]

/-- Non-emptiness of every produced route, from any state whose completed
routes are all non-empty. -/
theorem loadMem_aux (lines : List String) :
    ∀ rs cur, (∀ r ∈ rs, r ≠ []) →
      ∀ r ∈ finishLoad (lines.foldl processLine ⟨rs, cur⟩), r ≠ [] := by
  induction lines with
  | nil => intro rs cur hrs; exact finishLoad_mem rs cur hrs
  | cons l ls ih =>
    intro rs cur hrs
    rw [List.foldl_cons, processLine_eq]
    by_cases hm : isMarker l
    · rw [if_pos hm]
      exact ih _ [] (finishLoad_mem rs cur hrs)
    · rw [if_neg hm]
      cases hw : lineWaypoint l with
      | some w => exact ih rs (cur ++ [w]) hrs
      | none => exact ih rs cur hrs

/-! ## Claims -/

/-- C1, counterexample: a file with a data line but no marker at all
produces one route while the claim's marker-based count is `0`, so the
number of routes does not, in general, equal the number of productive
route-start markers. -/
theorem claim_C1_cex :
    ¬ ((loadLines ["1,2"]).length = productiveMarkerCount ["1,2"]) := by decide

/-- C1 (amended): the number of routes returned equals the number of
route-start markers whose following segment (up to the next marker or end
of file) yields a non-empty route, plus one more route if the lines before
the first marker themselves contribute at least one waypoint. -/
theorem claim_C1_amended (lines : List String) :
    (loadLines lines).length
      = productiveMarkerCount lines + (if segHasWaypoint lines then 1 else 0) := by
  have h := loadCount_aux lines [] []
  unfold loadLines
  rw [h]
  by_cases hs : segHasWaypoint lines <;> simp [hs] <;> omega

/-- C2: the loader signals no failure to its caller: a missing file and a
read that fails partway (whatever lines were already read) both give `[]`,
indistinguishable from the result for an empty file. -/
theorem claim_C2 (partialLines : List String) :
    load_routes_from_csv FileRead.missing = []
    ∧ load_routes_from_csv (FileRead.readError partialLines) = []
    ∧ load_routes_from_csv (FileRead.ok [])
        = load_routes_from_csv FileRead.missing :=
  ⟨rfl, rfl, rfl⟩

/-- C3: for a non-marker line containing a comma, a split with at least 3
fields parses the first two as floats and the third as an integer id
(further fields ignored), and a split with exactly 2 fields parses them
as x/y with the sentinel id `-1`. -/
theorem claim_C3 :
    (∀ (l : String) (p0 p1 p2 : List Char) (ps : List (List Char))
        (x y : ℚ) (n : ℤ),
      isMarker l = false →
      (pyStripChars l.data).contains ',' = true →
      splitOnComma (pyStripChars l.data) = p0 :: p1 :: p2 :: ps →
      pyFloat? p0 = some x → pyFloat? p1 = some y → pyInt? p2 = some n →
      lineWaypoint l = some ⟨x, y, n⟩)
    ∧ (∀ (l : String) (p0 p1 : List Char) (x y : ℚ),
      isMarker l = false →
      (pyStripChars l.data).contains ',' = true →
      splitOnComma (pyStripChars l.data) = [p0, p1] →
      pyFloat? p0 = some x → pyFloat? p1 = some y →
      lineWaypoint l = some ⟨x, y, -1⟩) := by
  constructor
  · intro l p0 p1 p2 ps x y n hm hc hsplit hx hy hn
    have hm' : beginsWith (pyStripChars l.data) markerChars = false := by
      simpa [isMarker] using hm
    have hc' : ',' ∈ pyStripChars l.data := by simpa using hc
    simp [lineWaypoint, hm', hc', parseDataLine, hsplit, hx, hy, hn]
  · intro l p0 p1 x y hm hc hsplit hx hy
    have hm' : beginsWith (pyStripChars l.data) markerChars = false := by
      simpa [isMarker] using hm
    have hc' : ',' ∈ pyStripChars l.data := by simpa using hc
    simp [lineWaypoint, hm', hc', parseDataLine, hsplit, hx, hy]

/-- C3, witness: a 4-field line takes its id from the third field and
ignores the fourth; a 2-field line gets the sentinel id. -/
theorem claim_C3_witness :
    lineWaypoint "0,5,9,zz" = some ⟨0, 5, 9⟩
    ∧ lineWaypoint "1,2" = some ⟨1, 2, -1⟩ :=
  ⟨claim_C3.1 "0,5,9,zz" "0".data "5".data "9".data ["zz".data] 0 5 9
      (by decide) (by decide) (by decide) (by decide) (by decide) (by decide),
   claim_C3.2 "1,2" "1".data "2".data 1 2
      (by decide) (by decide) (by decide) (by decide) (by decide)⟩

/-- C4: a coordinate record whose numeric parse fails contributes nothing:
deleting the line from the file leaves the loaded routes unchanged (so the
rest of the file is still processed normally and no failure is signalled);
loading is deterministic. -/
theorem claim_C4 (l1 l2 : List String) (s : String)
    (hm : isMarker s = false)
    (_hc : (pyStripChars s.data).contains ',' = true)
    (hp : parseDataLine (pyStripChars s.data) = none) :
    loadLines (l1 ++ s :: l2) = loadLines (l1 ++ l2)
    ∧ load_routes_from_csv (FileRead.ok (l1 ++ s :: l2))
        = load_routes_from_csv (FileRead.ok (l1 ++ s :: l2)) := by
  refine ⟨?_, rfl⟩
  have hm' : beginsWith (pyStripChars s.data) markerChars = false := by
    simpa [isMarker] using hm
  have hw : lineWaypoint s = none := by
    simp [lineWaypoint, hm', hp]
  have hstep : ∀ st, processLine st s = st := by
    intro st
    rw [processLine_eq]
    simp [hm, hw]
  unfold loadLines
  rw [List.foldl_append, List.foldl_append, List.foldl_cons, hstep]

/-- C4, witness: dropping the malformed line `4,x` does not change the
result. -/
theorem claim_C4_witness :
    loadLines (["# Ruta vehiculo 1", "1,2,3"] ++ "4,x" :: ["5,6"])
      = loadLines (["# Ruta vehiculo 1", "1,2,3"] ++ ["5,6"]) :=
  (claim_C4 ["# Ruta vehiculo 1", "1,2,3"] ["5,6"] "4,x"
      (by decide) (by decide) (by decide)).1

/-- C10: every route in the loader's result is non-empty, for every input
file outcome: routes are appended only when non-empty, both at marker
lines and at end of file. -/
theorem claim_C10 (input : FileRead) :
    ∀ r ∈ load_routes_from_csv input, r ≠ [] := by
  cases input with
  | missing => simp [load_routes_from_csv]
  | readError p => simp [load_routes_from_csv]
  | ok lines => exact loadMem_aux lines [] [] (by simp)

/-- C10, witness: the single route loaded from `1,2` is non-empty. -/
theorem claim_C10_witness :
    [(⟨1, 2, -1⟩ : Waypoint)] ∈ load_routes_from_csv (FileRead.ok ["1,2"])
    ∧ [(⟨1, 2, -1⟩ : Waypoint)] ≠ ([] : List Waypoint) :=
  ⟨by decide, claim_C10 (FileRead.ok ["1,2"]) _ (by decide)⟩

/-! ## Helper lemmas for the color allocator -/

theorem range_map_getD {α : Type} (l : List α) (d : α) :
    ∀ k, k ≤ l.length →
      (List.range k).map (fun i => l.getD i d) = l.take k := by
  intro k hk
  apply List.ext_getElem
  · simp
    omega
  · intro i h1 h2
    have hi : i < l.length := by
      simp at h1
      omega
    simp [List.getElem_map, List.getElem_range, List.getElem_take,
      List.getElem?_eq_getElem hi]

theorem hexDigitChar_hex : ∀ m, m < 16 → isHexDigitChar (Nat.digitChar m) = true := by
  decide

theorem isHex6Color_hash_format06x (v : Nat) :
    isHex6Color ("#" ++ format06x v) = true := by
  have hdata : ("#" ++ format06x v).data
      = '#' :: ((List.range 6).reverse.map fun i => Nat.digitChar (v / 16 ^ i % 16)) :=
    rfl
  unfold isHex6Color
  rw [hdata]
  simp only [List.length_map, List.length_reverse, List.length_range,
    List.all_eq_true, List.mem_map, List.mem_reverse, List.mem_range,
    Bool.and_eq_true, beq_iff_eq]
  refine ⟨by simp, ?_⟩
  rintro c ⟨i, _, rfl⟩
  exact hexDigitChar_hex _ (Nat.mod_lt _ (by norm_num))

/-! ## Claims about the color allocator, renderer and summary pass -/

/-- C5: for every count `n` and every admissible random stream,
`generate_colors` returns exactly `n` colors; the first `min n 24` are the
fixed palette entries in fixed order (the same whatever the stream, hence
identical across calls); every entry past the palette is a `#` followed by
exactly six hexadecimal digits. -/
theorem claim_C5 (n : Nat) (rng : Nat → Nat) (_hrng : ∀ i, rng i ≤ 16777215) :
    (generate_colors n rng).length = n
    ∧ (generate_colors n rng).take (min n base_colors.length)
        = base_colors.take (min n base_colors.length)
    ∧ ((generate_colors n rng).drop base_colors.length).all isHex6Color = true := by
  refine ⟨?_, ?_, ?_⟩
  · simp [generate_colors]
    omega
  · unfold generate_colors
    have hlen : ((List.range (min n base_colors.length)).map
        fun i => base_colors.getD i "").length = min n base_colors.length := by
      simp
    rw [List.take_left' hlen]
    exact range_map_getD base_colors "" (min n base_colors.length)
      (Nat.min_le_right _ _)
  · unfold generate_colors
    rcases le_or_lt n base_colors.length with h | h
    · have h2 : n - base_colors.length = 0 := Nat.sub_eq_zero_of_le h
      have hdrop : (((List.range (min n base_colors.length)).map
            fun i => base_colors.getD i "")
          ++ ((List.range' base_colors.length (n - base_colors.length)).map
            fun i => "#" ++ format06x (rng i))).drop base_colors.length = [] := by
        apply List.drop_eq_nil_of_le
        simp [h2]
      rw [hdrop]
      rfl
    · have hA : ((List.range (min n base_colors.length)).map
          fun i => base_colors.getD i "").length = base_colors.length := by
        simp [Nat.min_eq_right (Nat.le_of_lt h)]
      rw [List.drop_left' hA]
      simp only [List.all_eq_true, List.mem_map]
      rintro s ⟨i, _, rfl⟩
      exact isHex6Color_hash_format06x (rng i)

/-- C5, witness at `n = 25`: 25 colors, the first 24 being the palette,
and the overflow color a valid hex color. -/
theorem claim_C5_witness :
    (generate_colors 25 (fun _ => 0)).length = 25
    ∧ (generate_colors 25 (fun _ => 0)).take (min 25 base_colors.length)
        = base_colors.take (min 25 base_colors.length)
    ∧ ((generate_colors 25 (fun _ => 0)).drop base_colors.length).all
        isHex6Color = true :=
  claim_C5 25 (fun _ => 0) (fun _ => by norm_num)

/-- C6: `plot_routes` on an empty route collection returns the null
handle and issues no drawing command; any route with fewer than 2
waypoints is skipped, contributing no polyline, annotation or marker. -/
theorem claim_C6 :
    (∀ rng : Nat → Nat, plot_routes [] rng = none)
    ∧ (∀ (i : Nat) (c : String) (r : List Waypoint),
        r.length < 2 → routeCmds i c r = []) := by
  constructor
  · intro rng; rfl
  · intro i c r h
    simp [routeCmds, h]

/-- C6, witness: the empty collection yields `none`, and a one-waypoint
route contributes no drawing command. -/
theorem claim_C6_witness :
    plot_routes [] (fun _ => 0) = none
    ∧ routeCmds 0 "" [⟨0, 0, 0⟩] = [] :=
  ⟨claim_C6.1 (fun _ => 0), claim_C6.2 0 "" [⟨0, 0, 0⟩] (by norm_num)⟩

/-! ## Helper lemmas for the plot bounds -/

theorem filter_not_lt_two (routes : List (List Waypoint)) :
    (routes.filter fun r => !decide (r.length < 2))
      = routes.filter fun r => decide (2 ≤ r.length) := by
  apply List.filter_congr
  intro r _
  by_cases h : r.length < 2
  · simp [h, show ¬ 2 ≤ r.length from by omega]
  · simp [h, show 2 ≤ r.length from by omega]

theorem boundsOf_collect (routes : List (List Waypoint)) :
    boundsOf (collectX routes) (collectY routes) = drawnBounds routes := by
  have hx : collectX routes
      = ((routes.filter fun r => decide (2 ≤ r.length)).flatten).map Waypoint.x := by
    unfold collectX
    rw [filter_not_lt_two, List.map_flatten]
  have hy : collectY routes
      = ((routes.filter fun r => decide (2 ≤ r.length)).flatten).map Waypoint.y := by
    unfold collectY
    rw [filter_not_lt_two, List.map_flatten]
  rw [hx, hy]
  rfl

/-- C7 (amended): whenever `plot_routes` returns a handle, the bounds it
sets are the min/max of the x and y values of the routes it does not skip
(those with at least 2 waypoints), expanded by 1% of each axis's range,
and are left at their default (`none`) when no such points exist. -/
theorem claim_C7_amended (routes : List (List Waypoint)) (rng : Nat → Nat)
    (res : PlotResult) (h : plot_routes routes rng = some res) :
    res.bounds = drawnBounds routes := by
  unfold plot_routes at h
  by_cases he : routes.isEmpty
  · rw [if_pos he] at h
    exact absurd h (by simp)
  · rw [if_neg he] at h
    cases res with
    | mk cmds bounds =>
      simp only [Option.some.injEq, PlotResult.mk.injEq] at h
      rw [← h.2]
      exact boundsOf_collect routes

/-- C7, counterexample: with a skipped one-waypoint route at `(100, 100)`
and a drawn route through `(0,0)` and `(1,1)`, the bounds actually set
exclude the skipped route's point, contradicting "across all routes in
the collection". -/
theorem claim_C7_cex :
    Option.map PlotResult.bounds (plot_routes cexRoutes (fun _ => 0))
      ≠ some (allRoutesBounds cexRoutes) := by
  have h1 : Option.map PlotResult.bounds (plot_routes cexRoutes (fun _ => 0))
      = some (boundsOf (collectX cexRoutes) (collectY cexRoutes)) := rfl
  have hx : collectX cexRoutes = [0, 1] := by decide
  have hy : collectY cexRoutes = [0, 1] := by decide
  have hxa : cexRoutes.flatten.map Waypoint.x = [100, 0, 1] := by decide
  have hya : cexRoutes.flatten.map Waypoint.y = [100, 0, 1] := by decide
  have hb : boundsOf (collectX cexRoutes) (collectY cexRoutes)
      = some (-(1/100 : ℚ), 101/100, -(1/100 : ℚ), 101/100) := by
    rw [hx, hy]
    norm_num [boundsOf, listMin, listMax, min_def, max_def]
  have ha : allRoutesBounds cexRoutes = some (-1, 101, -1, 101) := by
    norm_num [allRoutesBounds, hxa, hya, listMin, listMax, min_def, max_def]
  rw [h1, hb, ha]
  intro hcontra
  simp only [Option.some.injEq, Prod.mk.injEq] at hcontra
  norm_num at hcontra

/-- C7, witness for the amended claim: on `cexRoutes` the bounds set by
the renderer equal the bounds over the non-skipped routes. -/
theorem claim_C7_witness :
    Option.map PlotResult.bounds (plot_routes cexRoutes (fun _ => 0))
      = some (drawnBounds cexRoutes) := by
  rcases hres : plot_routes cexRoutes (fun _ => 0) with _ | res
  · exact absurd hres (by simp [plot_routes, cexRoutes])
  · rw [Option.map_some']
    exact congrArg some (claim_C7_amended cexRoutes (fun _ => 0) res hres)

/-- C8, counterexample: on the literal 8-line input the renderer does
render the label `0` — the depot id `0` is a real id, only `-1` is the
unknown-id sentinel — in fact four times (first and last waypoint of each
route), so "not 0" fails. -/
theorem claim_C8_cex :
    countAnnot "0"
        (plot_routes (load_routes_from_csv (FileRead.ok lines8)) (fun _ => 0)) = 4
    ∧ countAnnot "0"
        (plot_routes (load_routes_from_csv (FileRead.ok lines8)) (fun _ => 0)) ≠ 0 := by
  constructor <;> decide

/-- C8 (amended): the loader produces exactly 2 routes of 3 waypoints,
each starting and ending at `(0,0,0)`; the renderer skips neither route,
renders node labels `1` and `2` exactly once each, and renders label `0`
four times (id `0` is a real id, not the unknown sentinel). -/
theorem claim_C8_amended :
    load_routes_from_csv (FileRead.ok lines8)
      = [[⟨0, 0, 0⟩, ⟨5, 5, 1⟩, ⟨0, 0, 0⟩], [⟨0, 0, 0⟩, ⟨3, 1, 2⟩, ⟨0, 0, 0⟩]]
    ∧ hasPolyline 0
        (plot_routes (load_routes_from_csv (FileRead.ok lines8)) (fun _ => 0)) = true
    ∧ hasPolyline 1
        (plot_routes (load_routes_from_csv (FileRead.ok lines8)) (fun _ => 0)) = true
    ∧ countAnnot "1"
        (plot_routes (load_routes_from_csv (FileRead.ok lines8)) (fun _ => 0)) = 1
    ∧ countAnnot "2"
        (plot_routes (load_routes_from_csv (FileRead.ok lines8)) (fun _ => 0)) = 1
    ∧ countAnnot "0"
        (plot_routes (load_routes_from_csv (FileRead.ok lines8)) (fun _ => 0)) = 4 := by
  exact ⟨by decide, by decide, by decide, by decide, by decide, by decide⟩

/-- C9: the summary pass emits no output, and its accumulated total is the
sum over all routes of the waypoint count minus one (zero for routes with
at most one waypoint); being a pure function of the route collection, it
cannot mutate it. -/
theorem claim_C9 (routes : List (List Waypoint)) :
    (print_route_summary routes).1 = []
    ∧ (print_route_summary routes).2 = (routes.map fun r => r.length - 1).sum := by
  refine ⟨rfl, ?_⟩
  have key : ∀ (rts : List (List Waypoint)) (acc : Nat),
      rts.foldl
          (fun total route =>
            total + (if route.length > 1 then route.length - 1 else 0)) acc
        = acc + (rts.map fun r => r.length - 1).sum := by
    intro rts
    induction rts with
    | nil => intro acc; simp
    | cons r rs ih =>
      intro acc
      rw [List.foldl_cons, ih, List.map_cons, List.sum_cons]
      have h2 : (if r.length > 1 then r.length - 1 else 0) = r.length - 1 := by
        by_cases h : r.length > 1 <;> simp [h] <;> omega
      rw [h2]
      omega
  simpa [print_route_summary] using key routes 0

end Graficar
